import Mathlib

/-!
Shallow embedding of the Warship-SVG-Generator front-end orchestration code
(services/geminiService, App component handlers, shared types), together with
theorems settling the specification's claims about it.

Strings from the source are modelled as `List Char`; the regular-expression
and host-platform primitives the code relies on (`String.prototype.match`
with the literal pattern `<svg[\s\S]*?<\/svg>` under the `i` flag,
`String.prototype.replace` with the pattern (three backticks)(xml|svg)?
under the `g` flag, `String.prototype.trim`, `JSON.parse`, canvas drawing)
are embedded by their ECMAScript / HTML semantics on the fragments the code
exercises.
-/

namespace WarshipSvg

/-- ASCII lower-casing, the case folding relevant to the `i` regex flag for the
patterns that occur in the source (which are pure ASCII). -/
def lowerAscii (c : Char) : Char :=
  if 'A' ≤ c ∧ c ≤ 'Z' then Char.ofNat (c.toNat + 32) else c

/-- Case-insensitive character comparison. -/
def ciEq (a b : Char) : Bool := lowerAscii a = lowerAscii b

/-- `ciLeads pat s` : the pattern `pat` matches, case-insensitively, at the
head of `s`. -/
def ciLeads : List Char → List Char → Bool
  | [], _ => true
  | _ :: _, [] => false
  | p :: ps, c :: cs => ciEq p c && ciLeads ps cs

/-- Index of the first case-insensitive occurrence of `pat` in `s`
(leftmost match position of a JS regex made of literal characters). -/
def findCI (pat : List Char) : List Char → Option Nat
  | [] => if ciLeads pat [] then some 0 else none
  | c :: cs =>
    if ciLeads pat (c :: cs) then some 0
    else (findCI pat cs).map (· + 1)

/-- The literal characters of the opening pattern `<svg`. -/
def svgOpen : List Char := ['<', 's', 'v', 'g']

/-- The literal characters of the closing pattern `</svg>`. -/
def svgClose : List Char := ['<', '/', 's', 'v', 'g', '>']

/-- Whitespace recognised by `String.prototype.trim` (restricted to the code
points that can appear here: ASCII blanks, line terminators, NBSP, BOM). -/
def isJsWhitespace (c : Char) : Bool :=
  c = ' ' || c = '\t' || c = '\n' || c = '\r' ||
  c.toNat = 11 || c.toNat = 12 || c.toNat = 0xA0 || c.toNat = 0xFEFF

/-- `text.trim()`. -/
def jsTrim (s : List Char) : List Char :=
  ((s.dropWhile isJsWhitespace).reverse.dropWhile isJsWhitespace).reverse

/-- `text.replace(/(three backticks)(xml|svg)?/g, '')`: delete every
non-overlapping leftmost match of three backticks optionally followed by
`xml` or `svg` (the group is greedy, so the language suffix is consumed
when present; matching is case-sensitive, the pattern has no `i` flag). -/
def stripFences : List Char → List Char
  | '`' :: '`' :: '`' :: 'x' :: 'm' :: 'l' :: rest => stripFences rest
  | '`' :: '`' :: '`' :: 's' :: 'v' :: 'g' :: rest => stripFences rest
  | '`' :: '`' :: '`' :: rest => stripFences rest
  | c :: rest => c :: stripFences rest
  | [] => []

/-- `extractSvg` (services/geminiService): `text.match(/<svg[\s\S]*?<\/svg>/i)`
returns the match starting at the first case-insensitive occurrence of `<svg`
and ending at the first case-insensitive occurrence of `</svg>` at or after
that point plus four characters (the lazy quantifier takes the shortest
filler); if the regex has no match the function falls back to
`text.replace(/(three backticks)(xml|svg)?/g, '').trim()`. -/
def extractSvg (text : List Char) : List Char :=
  match findCI svgOpen text with
  | none => jsTrim (stripFences text)
  | some i =>
    match findCI svgClose (text.drop (i + 4)) with
    | none => jsTrim (stripFences text)
    | some k => (text.drop i).take (4 + k + 6)

example : extractSvg ("hello <svg x>body</svg> there".toList) =
    ("<svg x>body</svg>".toList) := by decide

example : extractSvg ("```svg\n no tag here\n```".toList) =
    ("no tag here".toList) := by decide

example : extractSvg ("use <svg here <svg>a</svg>".toList) =
    ("<svg here <svg>a</svg>".toList) := by decide

/-! ## Shared types (types.ts) -/

/-- `GenerationStatus` (types.ts). -/
inductive GenerationStatus where
  | IDLE | SEGMENTING | LOADING | AUDITING | HEALING | SUCCESS | ERROR
  deriving DecidableEq, Repr

/-- `ViewType` (types.ts): union of string literals. -/
inductive ViewType where
  | side | top | isometric | unknown
  deriving DecidableEq, Repr

/-- The string a `ViewType` value is (the TS type is a union of strings). -/
def ViewType.str : ViewType → List Char
  | .side => "side".toList
  | .top => "top".toList
  | .isometric => "isometric".toList
  | .unknown => "unknown".toList

/-- `BoundingBox` (types.ts): four numbers, 0-1000 normalised scale.
JS numbers are modelled by rationals (the arithmetic performed on them in
`cropImage` is division by 1000, multiplication and addition, exact here). -/
structure BoundingBox where
  ymin : ℚ
  xmin : ℚ
  ymax : ℚ
  xmax : ℚ
  deriving DecidableEq, Repr

/-- `ImageData` (types.ts): base64 data URL plus mime type. -/
structure ImageData where
  data : List Char
  mimeType : List Char
  deriving DecidableEq, Repr

/-- `ApiError` (types.ts). -/
structure ApiError where
  message : List Char
  details : Option (List Char)
  deriving DecidableEq, Repr

/-- `GeneratedSvg` (types.ts). -/
structure GeneratedSvg where
  id : List Char
  content : List Char
  prompt : List Char
  timestamp : ℤ
  auditReport : Option (List Char)
  viewType : ViewType
  deriving DecidableEq, Repr

/-- `WarshipProject` (types.ts). -/
structure WarshipProject where
  id : List Char
  sideView : Option GeneratedSvg
  topView : Option GeneratedSvg
  originalImage : ImageData
  deriving DecidableEq, Repr

/-! ## The cropper (`cropImage`, services/geminiService) -/

/-- One drawing operation performed on the scratch canvas by `cropImage`:
either `ctx.fillRect` with the current fill style, or the nine-argument
`ctx.drawImage` (source rectangle, destination rectangle). -/
inductive CanvasOp where
  | fillRect (fillStyle : List Char) (x y w h : ℚ)
  | drawImage (src : List Char) (sx sy sw sh dx dy dw dh : ℚ)
  deriving DecidableEq, Repr

/-- The scratch canvas `cropImage` builds: its dimensions and the drawing
operations applied to it, in order. -/
structure Canvas where
  width : ℚ
  height : ℚ
  ops : List CanvasOp
  deriving DecidableEq, Repr

/-- The host environment `cropImage` interacts with: image decoding
(`Image.onload` / `onerror`, yielding the natural dimensions on success),
whether `canvas.getContext('2d')` succeeds, and the JPEG encoder behind
`canvas.toDataURL('image/jpeg', 0.95)` (abstracted as a function from the
canvas contents to the base64 payload of the returned data URL). -/
structure CanvasEnv where
  imageLoad : List Char → Option (ℚ × ℚ)
  ctxAvailable : Bool
  jpegBase64 : Canvas → List Char

/-- The canvas `cropImage` draws for a given source image (of natural size
`width × height`) and bounding box: scaled crop rectangle, 20-unit padding on
every side, white background fill, then the cropped region. -/
def cropCanvas (src : List Char) (width height : ℚ) (box : BoundingBox) : Canvas :=
  let x := box.xmin / 1000 * width
  let y := box.ymin / 1000 * height
  let w := (box.xmax - box.xmin) / 1000 * width
  let h := (box.ymax - box.ymin) / 1000 * height
  let padding : ℚ := 20
  { width := w + padding * 2
    height := h + padding * 2
    ops := [
      .fillRect "#FFFFFF".toList 0 0 (w + padding * 2) (h + padding * 2),
      .drawImage src x y w h padding padding w h ] }

/-- `cropImage` (services/geminiService): loads `base64Data` into an image;
on load failure the promise rejects with the error event (modelled by a fixed
tag); if the 2D context cannot be acquired it rejects with
`Could not get canvas context`; otherwise it resolves with a JPEG data URL of
the padded crop. -/
def cropImage (env : CanvasEnv) (base64Data : List Char) (box : BoundingBox) :
    Except (List Char) ImageData :=
  match env.imageLoad base64Data with
  | none => .error "image load error event".toList
  | some (width, height) =>
    if env.ctxAvailable then
      let canvas := cropCanvas base64Data width height box
      .ok { data := "data:image/jpeg;base64,".toList ++ env.jpegBase64 canvas
            mimeType := "image/jpeg".toList }
    else
      .error "Could not get canvas context".toList

/-! ## The view detector (`detectAndCropViews`, services/geminiService)

The detector feeds the model response text to the host's `JSON.parse`.
`JSON.parse` is embedded below for the fragment of JSON the exchange uses:
objects, arrays, strings (an escape consumes the escaped character and keeps
it literally — exact for `\"` and `\\`, the only escapes that can matter
here), integer numerals, `true`/`false`/`null`.  A malformed document makes
the parser fail, as `JSON.parse` throws a `SyntaxError`. -/

/-- A parsed JSON value. -/
inductive Json where
  | null
  | bool (b : Bool)
  | num (q : ℚ)
  | str (s : List Char)
  | arr (elems : List Json)
  | obj (fields : List (List Char × Json))
  deriving Repr

/-- JSON insignificant whitespace. -/
def isJsonWs (c : Char) : Bool := c = ' ' || c = '\t' || c = '\n' || c = '\r'

/-- Skip insignificant whitespace. -/
def skipWs (s : List Char) : List Char := s.dropWhile isJsonWs

/-- Longest digit span at the head of the input. -/
def digitSpan : List Char → List Char × List Char
  | c :: cs =>
    if c.isDigit then
      let (d, r) := digitSpan cs
      (c :: d, r)
    else ([], c :: cs)
  | [] => ([], [])

/-- Numeric value of a digit string. -/
def digitsToNat (ds : List Char) : Nat :=
  ds.foldl (fun n c => 10 * n + (c.toNat - 48)) 0

/-- Body of a JSON string after its opening quote: characters up to the
closing quote; a backslash consumes the following character and keeps it. -/
def parseStringRest : Nat → List Char → Option (List Char × List Char)
  | _, [] => none
  | 0, _ :: _ => none
  | _ + 1, '"' :: rest => some ([], rest)
  | fuel + 1, '\\' :: rest =>
    match rest with
    | [] => none
    | c :: rest2 => (parseStringRest fuel rest2).map (fun p => (c :: p.1, p.2))
  | fuel + 1, c :: rest => (parseStringRest fuel rest).map (fun p => (c :: p.1, p.2))

mutual

/-- Parse one JSON value from the head of the input (after whitespace),
returning it with the unconsumed remainder. -/
def parseValue : Nat → List Char → Option (Json × List Char)
  | 0, _ => none
  | fuel + 1, s =>
    match skipWs s with
    | 'n' :: 'u' :: 'l' :: 'l' :: r => some (.null, r)
    | 't' :: 'r' :: 'u' :: 'e' :: r => some (.bool true, r)
    | 'f' :: 'a' :: 'l' :: 's' :: 'e' :: r => some (.bool false, r)
    | '"' :: r => (parseStringRest (r.length + 1) r).map (fun p => (.str p.1, p.2))
    | '[' :: r =>
      (match skipWs r with
       | ']' :: r2 => some (.arr [], r2)
       | r2 => (parseItems fuel r2).map (fun p => (.arr p.1, p.2)))
    | '{' :: r =>
      (match skipWs r with
       | '}' :: r2 => some (.obj [], r2)
       | r2 => (parseFields fuel r2).map (fun p => (.obj p.1, p.2)))
    | '-' :: r =>
      (match digitSpan r with
       | ([], _) => none
       | (ds, r2) => some (.num (-(digitsToNat ds : ℚ)), r2))
    | c :: r =>
      if c.isDigit then
        (match digitSpan (c :: r) with
         | (ds, r2) => some (.num (digitsToNat ds : ℚ), r2))
      else none
    | [] => none

/-- Parse the comma-separated elements of a non-empty array, up to `]`. -/
def parseItems : Nat → List Char → Option (List Json × List Char)
  | 0, _ => none
  | fuel + 1, s =>
    match parseValue fuel s with
    | none => none
    | some (v, r) =>
      match skipWs r with
      | ',' :: r2 => (parseItems fuel r2).map (fun p => (v :: p.1, p.2))
      | ']' :: r2 => some ([v], r2)
      | _ => none

/-- Parse the comma-separated members of a non-empty object, up to `}`. -/
def parseFields : Nat → List Char → Option (List (List Char × Json) × List Char)
  | 0, _ => none
  | fuel + 1, s =>
    match skipWs s with
    | '"' :: r =>
      (match parseStringRest (r.length + 1) r with
       | none => none
       | some (key, r2) =>
         match skipWs r2 with
         | ':' :: r3 =>
           (match parseValue fuel r3 with
            | none => none
            | some (v, r4) =>
              match skipWs r4 with
              | ',' :: r5 => (parseFields fuel r5).map (fun p => ((key, v) :: p.1, p.2))
              | '}' :: r5 => some ([(key, v)], r5)
              | _ => none)
         | _ => none)
    | _ => none

end

/-- `JSON.parse(text)`: parse one value, require only whitespace after it;
`none` models the thrown `SyntaxError`. -/
def jsonParse (s : List Char) : Option Json :=
  match parseValue (2 * s.length + 2) s with
  | some (v, rest) => if skipWs rest = [] then some v else none
  | none => none

example : jsonParse "\x7b\x7d".toList = some (.obj []) := rfl
example : jsonParse "not json".toList = none := rfl
example : jsonParse " \x7b\"a\": true, \"b\": \x7b\"x\": -3\x7d\x7d ".toList =
    some (.obj [("a".toList, .bool true),
                ("b".toList, .obj [("x".toList, .num (-3))])]) := rfl

/-- Property access `obj[key]` on a parsed JSON object: for duplicate keys
`JSON.parse` keeps the last occurrence. -/
def jsGetField (fields : List (List Char × Json)) (key : List Char) : Option Json :=
  (fields.reverse.find? (fun p => p.1 = key)).map (·.2)

/-- Property access `v.key` as the detector performs it on the parse result:
defined for objects (absent key is `undefined`, modelled `none`); on any
non-object non-null value the named properties read here are `undefined`. -/
def jsGet (v : Json) (key : List Char) : Option Json :=
  match v with
  | .obj fields => jsGetField fields key
  | _ => none

/-- ECMAScript truthiness of a possibly-`undefined` JSON value. -/
def jsTruthy : Option Json → Bool
  | none => false
  | some .null => false
  | some (.bool b) => b
  | some (.num q) => decide (q ≠ 0)
  | some (.str s) => decide (s ≠ [])
  | some (.arr _) => true
  | some (.obj _) => true

/-- Read a numeric JSON field. -/
def jsonNum : Option Json → Option ℚ
  | some (.num q) => some q
  | _ => none

/-- The bounding box a detector JSON object denotes, when its four fields are
numbers (as the response schema requests). -/
def toBoundingBox (v : Json) : Option BoundingBox := do
  let ymin ← jsonNum (jsGet v ("ymin".toList))
  let xmin ← jsonNum (jsGet v ("xmin".toList))
  let ymax ← jsonNum (jsGet v ("ymax".toList))
  let xmax ← jsonNum (jsGet v ("xmax".toList))
  pure { ymin := ymin, xmin := xmin, ymax := ymax, xmax := xmax }

/-- The record `detectAndCropViews` resolves with: optional side and top
crops. -/
structure DetectedCrops where
  side : Option ImageData
  top : Option ImageData
  deriving DecidableEq, Repr

/-- One optional crop of `detectAndCropViews`: when the `<view>Found` flag and
the `<view>Box` field are both truthy, crop the source image to that box
(propagating `cropImage` rejections).  A truthy box whose fields are not all
numbers would drive the host's arithmetic into NaN; that corner is modelled
as a rejection and is unreachable for schema-conforming responses. -/
def cropForView (env : CanvasEnv) (imageData : ImageData) (result : Json)
    (foundKey boxKey : List Char) : Except (List Char) (Option ImageData) :=
  if jsTruthy (jsGet result foundKey) && jsTruthy (jsGet result boxKey) then
    match (jsGet result boxKey).bind toBoundingBox with
    | some box => (cropImage env imageData.data box).map some
    | none => .error ("NaN bounding box arithmetic (not modelled)".toList)
  else
    .ok none

/-- `detectAndCropViews` (services/geminiService), as a function of the
detector model's response text (`none` models an absent `response.text`):
`JSON.parse(response.text || "{}")` — the empty-object default applies only
to an absent or empty text, a malformed non-empty text makes `JSON.parse`
throw, rejecting the whole call (and a literal `null` response makes the
subsequent property reads throw a `TypeError`); then each of the side and top
crops is produced when its flag and box are truthy. -/
def detectAndCropViews (env : CanvasEnv) (imageData : ImageData)
    (responseText : Option (List Char)) : Except (List Char) DetectedCrops :=
  let t := match responseText with
    | none => "\x7b\x7d".toList
    | some s => if s = [] then "\x7b\x7d".toList else s
  match jsonParse t with
  | none => .error ("SyntaxError: Unexpected token in JSON".toList)
  | some .null => .error ("TypeError: cannot read properties of null".toList)
  | some result => do
    let side ← cropForView env imageData result ("sideViewFound".toList) ("sideViewBox".toList)
    let top ← cropForView env imageData result ("topViewFound".toList) ("topViewBox".toList)
    pure { side := side, top := top }

/-! ## The per-view pipeline (`runViewPipeline`, services/geminiService)

The three stage helpers each make one model request.  Prompt assembly (system
instructions, image parts, the 50000-character truncation of the draft fed to
the auditor) is opaque payload of that request; what the code observably does
with the response is modelled: `generateDraft` and `healDraft` apply
`extractSvg` to `response.text`, `auditDraft` substitutes a fixed fallback
for a falsy `response.text`. -/

/-- ASCII upper-casing (`String.prototype.toUpperCase` on the ASCII view-type
strings). -/
def upperAscii (c : Char) : Char :=
  if 'a' ≤ c ∧ c ≤ 'z' then Char.ofNat (c.toNat - 32) else c

/-- `s.toUpperCase()`. -/
def toUpperAscii (s : List Char) : List Char := s.map upperAscii

/-- An observable side effect of one `runViewPipeline` run:
a `onStatusChange(tag)` invocation or one outbound model request. -/
inductive PipelineEvent where
  | statusUpdate (tag : List Char)
  | modelCall (stage : List Char)
  deriving DecidableEq, Repr

/-- The responses the external model gives to the three requests of one
pipeline run: each is either a rejection (network or API failure) or a
response whose `text` may be absent (`none`). -/
structure GenAI where
  draftResponse : Except (List Char) (Option (List Char))
  auditResponse : Except (List Char) (Option (List Char))
  healResponse : Except (List Char) (Option (List Char))

/-- `runViewPipeline`'s resolved value: the healed SVG and the audit text. -/
structure PipeResult where
  content : List Char
  auditReport : List Char
  deriving DecidableEq, Repr

/-- `generateDraft` (stage 1): one Pro-model request, then
`extractSvg(response.text)`; an absent `text` makes that call throw. -/
def generateDraft (ai : GenAI) : Except (List Char) (List Char) :=
  match ai.draftResponse with
  | .error e => .error e
  | .ok none => .error ("TypeError: response.text is undefined".toList)
  | .ok (some t) => .ok (extractSvg t)

/-- `auditDraft` (stage 2): one Flash-model request, then
`response.text || "No major issues found."`. -/
def auditDraft (ai : GenAI) : Except (List Char) (List Char) :=
  match ai.auditResponse with
  | .error e => .error e
  | .ok none => .ok ("No major issues found.".toList)
  | .ok (some t) => .ok (if t = [] then "No major issues found.".toList else t)

/-- `healDraft` (stage 3): one Pro-model request, then
`extractSvg(response.text)`. -/
def healDraft (ai : GenAI) : Except (List Char) (List Char) :=
  match ai.healResponse with
  | .error e => .error e
  | .ok none => .error ("TypeError: response.text is undefined".toList)
  | .ok (some t) => .ok (extractSvg t)

/-- `runViewPipeline` (services/geminiService): fires
`onStatusChange("DRAFTING_" + viewType.toUpperCase())`, awaits the draft,
then likewise for audit and heal; any stage rejection aborts the run.  The
returned event list is the run's observable side effects, in order; the
`Except` is the promise outcome. -/
def runViewPipeline (ai : GenAI) (viewType : ViewType) :
    List PipelineEvent × Except (List Char) PipeResult :=
  let tag := toUpperAscii viewType.str
  let t1 := [PipelineEvent.statusUpdate ("DRAFTING_".toList ++ tag),
             PipelineEvent.modelCall ("draft".toList)]
  match generateDraft ai with
  | .error e => (t1, .error e)
  | .ok _draft =>
    let t2 := t1 ++ [PipelineEvent.statusUpdate ("AUDITING_".toList ++ tag),
                     PipelineEvent.modelCall ("audit".toList)]
    match auditDraft ai with
    | .error e => (t2, .error e)
    | .ok audit =>
      let t3 := t2 ++ [PipelineEvent.statusUpdate ("HEALING_".toList ++ tag),
                       PipelineEvent.modelCall ("heal".toList)]
      match healDraft ai with
      | .error e => (t3, .error e)
      | .ok healed => (t3, .ok { content := healed, auditReport := audit })

/-! ## The application handlers (App component) -/

/-- The App component's pieces of state: `status`, `project`, `activeView`,
`error`, `pipelineStatus`. -/
structure AppState where
  status : GenerationStatus
  project : Option WarshipProject
  activeView : ViewType
  error : Option ApiError
  pipelineStatus : List Char
  deriving DecidableEq, Repr

/-- The `GeneratedSvg` record `handleGenerate` builds from one resolved
pipeline run. -/
def makeView (viewId prompt : List Char) (now : ℤ) (vt : ViewType)
    (res : PipeResult) : GeneratedSvg :=
  { id := viewId
    content := res.content
    prompt := prompt
    timestamp := now
    auditReport := some res.auditReport
    viewType := vt }

/-- The message of the error thrown by `handleGenerate` when the detector
yields no crop at all. -/
def detectionFailureMsg : List Char :=
  "Could not identify distinct views in the schematic.".toList

/-- The rejection `Promise.all` propagates from the launched pipelines, if
any.  Which of two rejections settles first is timing the source does not
control; the model takes the side pipeline's rejection first — the choice
only affects the attached message text, never whether the join fails. -/
def firstPipelineError (crops : DetectedCrops)
    (sideRun topRun : Except (List Char) PipeResult) : Option (List Char) :=
  match crops.side, sideRun with
  | some _, .error e => some e
  | _, _ =>
    match crops.top, topRun with
    | some _, .error e => some e
    | _, _ => none

/-- `handleGenerate` (App): the state when the handler settles, as a function
of the outcomes of its awaited effects (detection result, pipeline run
results) and of the fresh identifiers and timestamp it draws.  The handler
first sets `status := SEGMENTING`, `pipelineStatus := "SCANNING_LAYOUT"` and
clears `error`, *then* returns early when neither a new image nor a stored
project image exists — so the early return leaves those three writes in
place.  Transient writes the handler overwrites before settling (the
`LOADING` status, the per-stage callback updates of `pipelineStatus`) do not
appear in the settled state; the `finally` clause blanks `pipelineStatus` on
every path that reaches the `try`. -/
def handleGenerate (st : AppState) (prompt : List Char) (imageData : Option ImageData)
    (detect : Except (List Char) DetectedCrops)
    (newProjectId sideViewId topViewId : List Char) (now : ℤ)
    (sideRun topRun : Except (List Char) PipeResult) : AppState :=
  let st1 : AppState := { st with
    status := .SEGMENTING
    pipelineStatus := "SCANNING_LAYOUT".toList
    error := none }
  match imageData.orElse (fun _ => st.project.map (·.originalImage)) with
  | none => st1
  | some imageToProcess =>
    match detect with
    | .error e =>
      { st1 with
        status := .ERROR
        error := some { message := "Pipeline Failure".toList, details := some e }
        pipelineStatus := [] }
    | .ok crops =>
      if crops.side.isNone ∧ crops.top.isNone then
        { st1 with
          status := .ERROR
          error := some { message := "Pipeline Failure".toList
                          details := some detectionFailureMsg }
          pipelineStatus := [] }
      else
        match firstPipelineError crops sideRun topRun with
        | some e =>
          { st1 with
            status := .ERROR
            error := some { message := "Pipeline Failure".toList, details := some e }
            pipelineStatus := [] }
        | none =>
          let newProject : WarshipProject :=
            { id := newProjectId
              originalImage := imageToProcess
              sideView := crops.side.bind
                (fun _ => sideRun.toOption.map (makeView sideViewId prompt now .side))
              topView := crops.top.bind
                (fun _ => topRun.toOption.map (makeView topViewId prompt now .top)) }
          { st1 with
            status := .SUCCESS
            project := some newProject
            activeView := if newProject.sideView.isSome then .side else .top
            pipelineStatus := [] }

/-- `handleRefine` (App): the state when the handler settles, as a function
of the outcome of the awaited `generateWarshipSvg` call and the timestamp it
draws.  The guard `if (!project) return;` runs before any write.  On an
absent active view the source spreads `undefined` in `{...currentSvg!}`,
yielding a view record with no identity — modelled with an empty id, no
audit report and `unknown` view type; that corner is unreachable when the
active view exists.  The handler has no `finally`, so `pipelineStatus` stays
`"REFINING_ACTIVE_VIEW"` in the settled state. -/
def handleRefine (st : AppState) (prompt : List Char)
    (refineResult : Except (List Char) (List Char)) (now : ℤ) : AppState :=
  match st.project with
  | none => st
  | some project =>
    let st1 : AppState := { st with
      status := .LOADING
      pipelineStatus := "REFINING_ACTIVE_VIEW".toList }
    match refineResult with
    | .error e =>
      { st1 with
        status := .ERROR
        error := some { message := "Refinement Failed".toList, details := some e } }
    | .ok refinedContent =>
      let currentSvg := if st.activeView = .side then project.sideView else project.topView
      let updatedSvg : GeneratedSvg :=
        match currentSvg with
        | some c =>
          { c with
            content := refinedContent
            prompt := prompt
            timestamp := now }
        | none =>
          { id := []
            content := refinedContent
            prompt := prompt
            timestamp := now
            auditReport := none
            viewType := .unknown }
      let project2 :=
        if st.activeView = .side then { project with sideView := some updatedSvg }
        else { project with topView := some updatedSvg }
      { st1 with status := .SUCCESS, project := some project2 }

/-! ## Lemmas about case-insensitive pattern search -/

/-- A successful `findCI` marks a match position with no earlier match. -/
theorem findCI_eq_some {pat : List Char} :
    ∀ {s : List Char} {i : Nat}, findCI pat s = some i →
      ciLeads pat (s.drop i) = true ∧ ∀ j < i, ciLeads pat (s.drop j) = false := by
  intro s
  induction s with
  | nil =>
    intro i h
    simp only [findCI] at h
    by_cases hc : ciLeads pat [] = true
    · simp [hc] at h
      subst h
      exact ⟨hc, by omega⟩
    · simp [Bool.eq_false_iff.mpr hc] at h
  | cons c cs ih =>
    intro i h
    simp only [findCI] at h
    by_cases hc : ciLeads pat (c :: cs) = true
    · simp [hc] at h
      subst h
      exact ⟨hc, by omega⟩
    · simp [Bool.eq_false_iff.mpr hc] at h
      obtain ⟨i2, hi2, rfl⟩ := h
      obtain ⟨h1, h2⟩ := ih hi2
      refine ⟨h1, ?_⟩
      intro j hj
      cases j with
      | zero => simpa using Bool.eq_false_iff.mpr hc
      | succ j2 => exact h2 j2 (by omega)

/-- Converse: a match position with no earlier match is what `findCI`
returns. -/
theorem findCI_eq_some_of {pat : List Char} :
    ∀ {s : List Char} {i : Nat}, ciLeads pat (s.drop i) = true →
      (∀ j < i, ciLeads pat (s.drop j) = false) → findCI pat s = some i := by
  intro s
  induction s with
  | nil =>
    intro i h1 h2
    cases i with
    | zero => simp only [List.drop] at h1; simp [findCI, h1]
    | succ i2 =>
      have := h2 0 (by omega)
      simp only [List.drop] at this h1
      rw [h1] at this
      cases this
  | cons c cs ih =>
    intro i h1 h2
    cases i with
    | zero =>
      simp only [List.drop] at h1
      simp [findCI, h1]
    | succ i2 =>
      have h0 : ciLeads pat (c :: cs) = false := h2 0 (by omega)
      simp only [findCI, h0]
      simp only [Bool.false_eq_true, if_false]
      have : findCI pat cs = some i2 :=
        ih (by simpa using h1) (fun j hj => h2 (j + 1) (by omega))
      simp [this]

/-- If no position matches, `findCI` fails. -/
theorem findCI_eq_none {pat : List Char} :
    ∀ {s : List Char}, (∀ j, ciLeads pat (s.drop j) = false) → findCI pat s = none := by
  intro s
  induction s with
  | nil =>
    intro h
    have := h 0
    simp only [List.drop] at this
    simp [findCI, this]
  | cons c cs ih =>
    intro h
    have h0 := h 0
    simp only [List.drop] at h0
    simp only [findCI, h0]
    simp [ih (fun j => by simpa using h (j + 1))]

/-- A match needs at least the pattern's length of input. -/
theorem ciLeads_length {pat : List Char} :
    ∀ {s : List Char}, ciLeads pat s = true → pat.length ≤ s.length := by
  induction pat with
  | nil => intro s _; simp
  | cons p ps ih =>
    intro s h
    cases s with
    | nil => simp [ciLeads] at h
    | cons c cs =>
      simp only [ciLeads, Bool.and_eq_true] at h
      simpa using ih h.2

/-- Appending input on the right preserves a match. -/
theorem ciLeads_append_of {pat : List Char} :
    ∀ {s : List Char}, ciLeads pat s = true → ∀ t, ciLeads pat (s ++ t) = true := by
  induction pat with
  | nil => intro s _ t; rfl
  | cons p ps ih =>
    intro s h t
    cases s with
    | nil => simp [ciLeads] at h
    | cons c cs =>
      simp only [ciLeads, Bool.and_eq_true] at h ⊢
      exact ⟨h.1, ih h.2 t⟩

/-- Input beyond the pattern's length does not affect the match. -/
theorem ciLeads_append_eq {pat : List Char} :
    ∀ {s : List Char}, pat.length ≤ s.length →
      ∀ t, ciLeads pat (s ++ t) = ciLeads pat s := by
  induction pat with
  | nil => intro s _ t; rfl
  | cons p ps ih =>
    intro s hlen t
    cases s with
    | nil => simp at hlen
    | cons c cs =>
      simp only [ciLeads, List.append_eq]
      rw [ih (by simpa using hlen) t]

/-- Positions at or past the end never match a nonempty pattern, so absence of
a match at every in-range position is absence everywhere. -/
theorem ciLeads_drop_all_false {pat text : List Char} (hp : pat ≠ [])
    (h : ∀ j < text.length, ciLeads pat (text.drop j) = false) :
    ∀ j, ciLeads pat (text.drop j) = false := by
  intro j
  by_cases hj : j < text.length
  · exact h j hj
  · rw [List.drop_eq_nil_of_le (Nat.le_of_not_lt hj)]
    cases pat with
    | nil => exact absurd rfl hp
    | cons p ps => rfl

/-! ## Claim C1 -/

/-- `s` is one well-formed `<svg> ... </svg>` element in the sense the
extraction pattern targets: it starts (case-insensitively) with `<svg`, and
the first closing tag after the opening is the one ending the string. -/
def isSvgElement (s : List Char) : Bool :=
  ciLeads svgOpen s && (findCI svgClose (s.drop 4) == some (s.length - 10))

example : isSvgElement ("<svg>a</svg>".toList) = true := by decide
example : isSvgElement ("<SVG viewBox='0 0 1 1'></svg>".toList) = true := by decide
example : isSvgElement ("<svg><p>".toList) = false := by decide

/-- A well-formed element is at least 10 characters long. -/
theorem isSvgElement_length {elt : List Char} (h : isSvgElement elt = true) :
    10 ≤ elt.length := by
  simp only [isSvgElement, Bool.and_eq_true, beq_iff_eq] at h
  have h1 := (findCI_eq_some h.2).1
  have h2 := ciLeads_length h1
  simp only [List.length_drop, svgClose, List.length_cons, List.length_nil] at h2
  omega

/-- Claim C1 is false as stated: a text can contain a well-formed
`<svg>...</svg>` substring and yet `extractSvg` can return a different
string, because the lazy case-insensitive match starts at the *first*
occurrence of `<svg`, which surrounding commentary can supply. -/
theorem C1_counterexample :
    (isSvgElement ("<svg>a</svg>".toList) = true ∧
      "use <svg here <svg>a</svg>".toList =
        "use ".toList ++ "<svg here <svg>a</svg>".toList ∧
      "<svg here <svg>a</svg>".toList =
        "<svg here ".toList ++ "<svg>a</svg>".toList) ∧
    extractSvg ("use <svg here <svg>a</svg>".toList) ≠ "<svg>a</svg>".toList := by
  refine ⟨⟨by decide, by decide, by decide⟩, by decide⟩

/-- Claim C1, amended: if the text decomposes as `pre ++ elt ++ post` with
`elt` a well-formed `<svg>...</svg>` element and no case-insensitive
occurrence of `<svg` starting inside `pre`, then `extractSvg` returns exactly
`elt`, regardless of the surrounding commentary; and on a text with no
case-insensitive occurrence of `<svg` at all, `extractSvg` returns the text
with code-fence markers stripped and whitespace trimmed. -/
theorem C1_extractSvg_amended :
    (∀ pre elt post : List Char, isSvgElement elt = true →
      (∀ j < pre.length, ciLeads svgOpen ((pre ++ (elt ++ post)).drop j) = false) →
      extractSvg (pre ++ (elt ++ post)) = elt) ∧
    (∀ text : List Char, (∀ j, ciLeads svgOpen (text.drop j) = false) →
      extractSvg text = jsTrim (stripFences text)) := by
  constructor
  · intro pre elt post hElt hPre
    have hLen10 : 10 ≤ elt.length := isSvgElement_length hElt
    simp only [isSvgElement, Bool.and_eq_true, beq_iff_eq] at hElt
    obtain ⟨hOpen, hClose⟩ := hElt
    -- the first occurrence of `<svg` is at position `pre.length`
    have hDropPre : (pre ++ (elt ++ post)).drop pre.length = elt ++ post :=
      List.drop_left pre (elt ++ post)
    have hOpenAt : ciLeads svgOpen ((pre ++ (elt ++ post)).drop pre.length) = true := by
      rw [hDropPre]
      exact ciLeads_append_of hOpen post
    have hFindOpen : findCI svgOpen (pre ++ (elt ++ post)) = some pre.length :=
      findCI_eq_some_of hOpenAt hPre
    -- dropping the opening `<svg` leaves `elt.drop 4 ++ post`
    have hDrop4 : (pre ++ (elt ++ post)).drop (pre.length + 4) = elt.drop 4 ++ post := by
      rw [← List.drop_drop, hDropPre, List.drop_append_eq_append_drop,
        Nat.sub_eq_zero_of_le (by omega), List.drop_zero]
    -- the first closing tag after the opening closes `elt`
    obtain ⟨hCloseAt, hCloseBefore⟩ := findCI_eq_some hClose
    have hlen4 : (List.drop 4 elt).length = elt.length - 4 := by simp
    have hCloseAt2 : ciLeads svgClose ((elt.drop 4 ++ post).drop (elt.length - 10)) = true := by
      have h0 : elt.length - 10 - (List.drop 4 elt).length = 0 := by
        rw [hlen4]; omega
      rw [List.drop_append_eq_append_drop, h0, List.drop_zero]
      exact ciLeads_append_of hCloseAt post
    have hCloseBefore2 : ∀ j < elt.length - 10,
        ciLeads svgClose ((elt.drop 4 ++ post).drop j) = false := by
      intro j hj
      have h0 : j - (List.drop 4 elt).length = 0 := by rw [hlen4]; omega
      rw [List.drop_append_eq_append_drop, h0, List.drop_zero]
      have hlen6 : svgClose.length ≤ ((List.drop 4 elt).drop j).length := by
        simp only [svgClose, List.length_drop, hlen4, List.length_cons, List.length_nil]
        omega
      rw [ciLeads_append_eq hlen6 post]
      exact hCloseBefore j hj
    have hFindClose : findCI svgClose ((pre ++ (elt ++ post)).drop (pre.length + 4)) =
        some (elt.length - 10) := by
      rw [hDrop4]
      exact findCI_eq_some_of hCloseAt2 hCloseBefore2
    -- assemble
    unfold extractSvg
    rw [hFindOpen]
    simp only [hFindClose]
    rw [hDropPre]
    have harith : 4 + (elt.length - 10) + 6 = elt.length := by omega
    rw [harith, List.take_left]
  · intro text hNone
    unfold extractSvg
    rw [findCI_eq_none hNone]

/-- Witness for the amended claim C1, at concrete inputs. -/
theorem C1_amended_witness :
    extractSvg ("note: ".toList ++ ("<svg>a</svg>".toList ++ " done".toList)) =
      "<svg>a</svg>".toList ∧
    extractSvg ("```xml hi ```".toList) =
      jsTrim (stripFences ("```xml hi ```".toList)) := by
  constructor
  · exact C1_extractSvg_amended.1 ("note: ".toList) ("<svg>a</svg>".toList)
      (" done".toList) (by decide) (by decide)
  · exact C1_extractSvg_amended.2 ("```xml hi ```".toList)
      (ciLeads_drop_all_false (by decide) (by decide))

/-! ## Claims C2 and C9 -/

/-- A concrete host environment: every image decodes to natural size
`100 × 50`, the 2D context is available, the JPEG encoder returns `"P"`. -/
def testEnv : CanvasEnv :=
  { imageLoad := fun _ => some (100, 50)
    ctxAvailable := true
    jpegBase64 := fun _ => "P".toList }

/-- The bounding box of the spec's end-to-end scenario. -/
def bbox0 : BoundingBox := { ymin := 100, xmin := 200, ymax := 400, xmax := 800 }

/-- Claim C2: for a bounding box with `xmin < xmax`, `ymin < ymax` within
[0,1000] and a source image that decodes with natural size `W × H` in an
environment where the drawing context is available, `cropImage` resolves
with the JPEG encoding of a canvas of width `(xmax-xmin)/1000*W + 40` and
height `(ymax-ymin)/1000*H + 40` whose first drawing operation fills the
whole canvas white; and `cropImage` fails exactly when the context cannot be
acquired or the image fails to decode. -/
theorem C2_cropImage_dimensions (env : CanvasEnv) (d : List Char) (box : BoundingBox)
    (W H : ℚ)
    (_hx0 : 0 ≤ box.xmin) (_hx : box.xmin < box.xmax) (_hx1 : box.xmax ≤ 1000)
    (_hy0 : 0 ≤ box.ymin) (_hy : box.ymin < box.ymax) (_hy1 : box.ymax ≤ 1000)
    (hload : env.imageLoad d = some (W, H))
    (hctx : env.ctxAvailable = true) :
    (cropImage env d box = Except.ok
      { data := "data:image/jpeg;base64,".toList ++ env.jpegBase64 (cropCanvas d W H box)
        mimeType := "image/jpeg".toList }) ∧
    (cropCanvas d W H box).width = (box.xmax - box.xmin) / 1000 * W + 40 ∧
    (cropCanvas d W H box).height = (box.ymax - box.ymin) / 1000 * H + 40 ∧
    (cropCanvas d W H box).ops.head? = some (CanvasOp.fillRect ("#FFFFFF".toList) 0 0
      ((cropCanvas d W H box).width) ((cropCanvas d W H box).height)) ∧
    (∀ env2 : CanvasEnv, ∀ d2 : List Char, ∀ box2 : BoundingBox,
      (∃ e, cropImage env2 d2 box2 = Except.error e) ↔
        (env2.imageLoad d2 = none ∨ env2.ctxAvailable = false)) := by
  refine ⟨?_, ?_, ?_, ?_, ?_⟩
  · simp [cropImage, hload, hctx]
  · simp only [cropCanvas]
    ring
  · simp only [cropCanvas]
    ring
  · simp only [cropCanvas, List.head?]
  · intro env2 d2 box2
    unfold cropImage
    cases hl : env2.imageLoad d2 with
    | none => simp
    | some wh =>
      cases hc : env2.ctxAvailable with
      | false => simp
      | true => simp

/-- Witness for claim C2 at the spec's end-to-end box on a `100 × 50` image:
the crop canvas is `100 × 55` with a white full-canvas fill first, and the
call resolves. -/
theorem C2_witness :
    (cropCanvas ("img".toList) 100 50 bbox0).width = (800 - 200) / 1000 * 100 + 40 ∧
    (cropCanvas ("img".toList) 100 50 bbox0).height = (400 - 100) / 1000 * 50 + 40 ∧
    (cropCanvas ("img".toList) 100 50 bbox0).width = 100 ∧
    (cropCanvas ("img".toList) 100 50 bbox0).height = 55 ∧
    (cropImage testEnv ("img".toList) bbox0).isOk = true := by
  have h := C2_cropImage_dimensions testEnv ("img".toList) bbox0 100 50
    (by norm_num [bbox0]) (by norm_num [bbox0]) (by norm_num [bbox0])
    (by norm_num [bbox0]) (by norm_num [bbox0]) (by norm_num [bbox0]) rfl rfl
  refine ⟨?_, ?_, ?_, ?_, ?_⟩
  · simpa [bbox0] using h.2.1
  · simpa [bbox0] using h.2.2.1
  · rw [h.2.1]; norm_num [bbox0]
  · rw [h.2.2.1]; norm_num [bbox0]
  · rw [h.1]; rfl

/-- Claim C9: every image `cropImage` resolves with has mime type
`image/jpeg` and a JPEG data URL as its data, whatever the source image
was. -/
theorem C9_cropImage_jpeg (env : CanvasEnv) (d : List Char) (box : BoundingBox)
    (img : ImageData) (h : cropImage env d box = Except.ok img) :
    img.mimeType = "image/jpeg".toList ∧
    ∃ payload, img.data = "data:image/jpeg;base64,".toList ++ payload := by
  unfold cropImage at h
  cases hl : env.imageLoad d with
  | none => rw [hl] at h; cases h
  | some wh =>
    rw [hl] at h
    cases hc : env.ctxAvailable with
    | false => rw [hc] at h; simp at h
    | true =>
      rw [hc] at h
      simp only [if_true] at h
      cases h
      exact ⟨rfl, _, rfl⟩

/-- Witness for claim C9 at a concrete environment and box. -/
theorem C9_witness :
    (match cropImage testEnv ("img".toList) bbox0 with
      | Except.ok img => img.mimeType
      | Except.error _ => []) = "image/jpeg".toList := by
  have hok : cropImage testEnv ("img".toList) bbox0 = Except.ok
      { data := "data:image/jpeg;base64,".toList ++ "P".toList
        mimeType := "image/jpeg".toList } := by rfl
  have h := C9_cropImage_jpeg testEnv ("img".toList) bbox0 _ hok
  exact hok ▸ h.1

/-! ## Claim C3 -/

/-- A concrete uploaded image. -/
def img0 : ImageData := { data := "img".toList, mimeType := "image/png".toList }

/-- Claim C3 is false as stated: on a malformed-JSON detector response
`detectAndCropViews` does *fail* — `JSON.parse` throws and the rejection
propagates — instead of returning a record with no crops. -/
theorem C3_counterexample :
    jsonParse ("not json".toList) = none ∧
    detectAndCropViews testEnv img0 (some ("not json".toList)) =
      Except.error ("SyntaxError: Unexpected token in JSON".toList) :=
  ⟨rfl, rfl⟩

/-- Claim C3, amended: the empty-object default of
`JSON.parse(response.text || "(empty object)")` applies only to an *absent or
empty* response text, for which the function resolves with neither crop; a
malformed non-empty text makes `JSON.parse` throw, so `detectAndCropViews`
rejects. -/
theorem C3_detect_amended (env : CanvasEnv) (img : ImageData) :
    detectAndCropViews env img none = Except.ok { side := none, top := none } ∧
    detectAndCropViews env img (some []) = Except.ok { side := none, top := none } ∧
    (∀ s : List Char, s ≠ [] → jsonParse s = none →
      detectAndCropViews env img (some s) =
        Except.error ("SyntaxError: Unexpected token in JSON".toList)) := by
  refine ⟨rfl, rfl, ?_⟩
  intro s hne hparse
  simp only [detectAndCropViews, if_neg hne, hparse]

/-- Witness for the amended claim C3 at concrete inputs. -/
theorem C3_witness :
    detectAndCropViews testEnv img0 none = Except.ok { side := none, top := none } ∧
    detectAndCropViews testEnv img0 (some ("\x7b".toList)) =
      Except.error ("SyntaxError: Unexpected token in JSON".toList) :=
  ⟨(C3_detect_amended testEnv img0).1,
    (C3_detect_amended testEnv img0).2.2 ("\x7b".toList) (by decide) rfl⟩

/-- Sanity check: a well-formed response with only a side view crops only the
side view, through the white-canvas JPEG cropper. -/
example : detectAndCropViews testEnv img0 (some
    ("\x7b\"sideViewFound\": true, \"sideViewBox\": \x7b\"ymin\": 100, \"xmin\": 200, \"ymax\": 400, \"xmax\": 800\x7d\x7d".toList)) =
    Except.ok
      { side := some { data := "data:image/jpeg;base64,".toList ++ "P".toList
                       mimeType := "image/jpeg".toList }
        top := none } := by rfl

/-! ## Claims C4, C5, C7 (handleGenerate) -/

/-- A concrete idle application state. -/
def st0 : AppState :=
  { status := .IDLE, project := none, activeView := .side, error := none, pipelineStatus := [] }

/-- A concrete resolved pipeline result. -/
def pipeResult0 : PipeResult :=
  { content := "<svg/>".toList, auditReport := "ok".toList }

/-- Claim C4 is false in its quoted message: with zero detected views the run
does fail and produces no project, but the surfaced error is the fixed pair
`Pipeline Failure` / `Could not identify distinct views in the schematic.`,
and neither component is the claimed string `no distinct views identified`. -/
theorem C4_counterexample :
    (handleGenerate st0 ("p".toList) (some img0)
        (Except.ok { side := none, top := none })
        ("pid".toList) ("sid".toList) ("tid".toList) 0
        (Except.ok pipeResult0) (Except.ok pipeResult0)).status = .ERROR ∧
    (handleGenerate st0 ("p".toList) (some img0)
        (Except.ok { side := none, top := none })
        ("pid".toList) ("sid".toList) ("tid".toList) 0
        (Except.ok pipeResult0) (Except.ok pipeResult0)).project = none ∧
    (handleGenerate st0 ("p".toList) (some img0)
        (Except.ok { side := none, top := none })
        ("pid".toList) ("sid".toList) ("tid".toList) 0
        (Except.ok pipeResult0) (Except.ok pipeResult0)).error =
      some { message := "Pipeline Failure".toList, details := some detectionFailureMsg } ∧
    detectionFailureMsg ≠ "no distinct views identified".toList ∧
    "Pipeline Failure".toList ≠ "no distinct views identified".toList := by
  exact ⟨rfl, rfl, rfl, by decide, by decide⟩

/-- Claim C4, amended: with both crops the new project has both views; with
exactly one crop only that view; with zero crops the run fails — with the
fixed error pair `Pipeline Failure` / `Could not identify distinct views in
the schematic.` — and no project is produced. -/
theorem C4_handleGenerate_views (st : AppState) (prompt : List Char) (img : ImageData)
    (crops : DetectedCrops) (pid sid tid : List Char) (now : ℤ)
    (sideRun topRun : Except (List Char) PipeResult) :
    (∀ c1 c2 r1 r2, crops.side = some c1 → crops.top = some c2 →
      sideRun = Except.ok r1 → topRun = Except.ok r2 →
      handleGenerate st prompt (some img) (Except.ok crops) pid sid tid now sideRun topRun =
        { st with
          status := .SUCCESS
          error := none
          pipelineStatus := []
          activeView := .side
          project := some { id := pid, originalImage := img
                            sideView := some (makeView sid prompt now .side r1)
                            topView := some (makeView tid prompt now .top r2) } }) ∧
    (∀ c1 r1, crops.side = some c1 → crops.top = none →
      sideRun = Except.ok r1 →
      handleGenerate st prompt (some img) (Except.ok crops) pid sid tid now sideRun topRun =
        { st with
          status := .SUCCESS
          error := none
          pipelineStatus := []
          activeView := .side
          project := some { id := pid, originalImage := img
                            sideView := some (makeView sid prompt now .side r1)
                            topView := none } }) ∧
    (∀ c2 r2, crops.side = none → crops.top = some c2 →
      topRun = Except.ok r2 →
      handleGenerate st prompt (some img) (Except.ok crops) pid sid tid now sideRun topRun =
        { st with
          status := .SUCCESS
          error := none
          pipelineStatus := []
          activeView := .top
          project := some { id := pid, originalImage := img
                            sideView := none
                            topView := some (makeView tid prompt now .top r2) } }) ∧
    (crops.side = none → crops.top = none →
      handleGenerate st prompt (some img) (Except.ok crops) pid sid tid now sideRun topRun =
        { st with
          status := .ERROR
          error := some { message := "Pipeline Failure".toList
                          details := some detectionFailureMsg }
          pipelineStatus := [] }) := by
  obtain ⟨cside, ctop⟩ := crops
  refine ⟨?_, ?_, ?_, ?_⟩
  · intro c1 c2 r1 r2 hs ht hr1 hr2
    cases hs; cases ht; cases hr1; cases hr2
    rfl
  · intro c1 r1 hs ht hr1
    cases hs; cases ht; cases hr1
    rfl
  · intro c2 r2 hs ht hr2
    cases hs; cases ht; cases hr2
    cases sideRun <;> rfl
  · intro hs ht
    cases hs; cases ht
    rfl

/-- Witness for the amended claim C4: one detected side view yields a project
with only that view populated. -/
theorem C4_witness :
    handleGenerate st0 ("p".toList) (some img0)
        (Except.ok { side := some img0, top := none })
        ("pid".toList) ("sid".toList) ("tid".toList) 7
        (Except.ok pipeResult0) (Except.ok pipeResult0) =
      { st0 with
        status := .SUCCESS
        error := none
        pipelineStatus := []
        activeView := .side
        project := some { id := "pid".toList, originalImage := img0
                          sideView := some (makeView ("sid".toList) ("p".toList) 7 .side pipeResult0)
                          topView := none } } :=
  (C4_handleGenerate_views st0 ("p".toList) img0
      { side := some img0, top := none } ("pid".toList) ("sid".toList) ("tid".toList) 7
      (Except.ok pipeResult0) (Except.ok pipeResult0)).2.1 img0 pipeResult0 rfl rfl rfl

/-- Claim C5: if both pipelines are launched and at least one rejects, the
whole generation attempt fails: status becomes `ERROR`, the surfaced error is
`Pipeline Failure` with the rejection's text, and the previous project state
is kept (the resolved sibling's result is discarded). -/
theorem C5_all_or_nothing (st : AppState) (prompt : List Char) (img : ImageData)
    (crops : DetectedCrops) (c1 c2 : ImageData) (pid sid tid : List Char) (now : ℤ)
    (sideRun topRun : Except (List Char) PipeResult)
    (hs : crops.side = some c1) (ht : crops.top = some c2)
    (hfail : (∃ e, sideRun = Except.error e) ∨ (∃ e, topRun = Except.error e)) :
    ∃ e, handleGenerate st prompt (some img) (Except.ok crops) pid sid tid now sideRun topRun =
      { st with
        status := .ERROR
        error := some { message := "Pipeline Failure".toList, details := some e }
        pipelineStatus := [] } := by
  obtain ⟨cside, ctop⟩ := crops
  cases hs; cases ht
  rcases hfail with ⟨e, he⟩ | ⟨e, he⟩
  · cases he
    exact ⟨e, rfl⟩
  · cases he
    cases sideRun with
    | error e2 => exact ⟨e2, rfl⟩
    | ok r => exact ⟨e, rfl⟩

/-- Witness for claim C5: the side pipeline resolves, the top pipeline
rejects, the whole call fails and the project state is unchanged. -/
theorem C5_witness :
    (handleGenerate st0 ("p".toList) (some img0)
        (Except.ok { side := some img0, top := some img0 })
        ("pid".toList) ("sid".toList) ("tid".toList) 0
        (Except.ok pipeResult0) (Except.error ("boom".toList))).status = .ERROR ∧
    (handleGenerate st0 ("p".toList) (some img0)
        (Except.ok { side := some img0, top := some img0 })
        ("pid".toList) ("sid".toList) ("tid".toList) 0
        (Except.ok pipeResult0) (Except.error ("boom".toList))).project = st0.project := by
  obtain ⟨e, he⟩ := C5_all_or_nothing st0 ("p".toList) img0
    { side := some img0, top := some img0 } img0 img0
    ("pid".toList) ("sid".toList) ("tid".toList) 0
    (Except.ok pipeResult0) (Except.error ("boom".toList))
    rfl rfl (Or.inr ⟨("boom".toList), rfl⟩)
  rw [he]
  exact ⟨rfl, rfl⟩

/-- Claim C7 is false as stated: with no new image and no project the call
does return early, but only after setting `status := SEGMENTING` and
`pipelineStatus := "SCANNING_LAYOUT"` — the settled state differs from the
initial one. -/
theorem C7_counterexample :
    (handleGenerate st0 ("p".toList) none (Except.ok { side := none, top := none })
        ("pid".toList) ("sid".toList) ("tid".toList) 0
        (Except.ok pipeResult0) (Except.ok pipeResult0)).status = .SEGMENTING ∧
    st0.status = .IDLE ∧
    handleGenerate st0 ("p".toList) none (Except.ok { side := none, top := none })
        ("pid".toList) ("sid".toList) ("tid".toList) 0
        (Except.ok pipeResult0) (Except.ok pipeResult0) ≠ st0 := by
  exact ⟨rfl, rfl, by decide⟩

/-- Claim C7, amended: with neither a new image nor an existing project
image, `handleGenerate` returns early — no project is produced and the
project and active-view state are untouched — but it has already set
`status := SEGMENTING`, `pipelineStatus := "SCANNING_LAYOUT"` and cleared
`error`; because the early return skips the `try`/`finally`, those writes
remain in the settled state. -/
theorem C7_generate_noImage_amended (st : AppState) (prompt : List Char)
    (detect : Except (List Char) DetectedCrops) (pid sid tid : List Char) (now : ℤ)
    (sideRun topRun : Except (List Char) PipeResult)
    (hproj : st.project = none) :
    handleGenerate st prompt none detect pid sid tid now sideRun topRun =
      { st with
        status := .SEGMENTING
        pipelineStatus := "SCANNING_LAYOUT".toList
        error := none } := by
  unfold handleGenerate
  rw [hproj]
  rfl

/-- Witness for the amended claim C7 at the concrete idle state. -/
theorem C7_witness :
    handleGenerate st0 ("p".toList) none (Except.ok { side := none, top := none })
        ("pid".toList) ("sid".toList) ("tid".toList) 0
        (Except.ok pipeResult0) (Except.ok pipeResult0) =
      { st0 with
        status := .SEGMENTING
        pipelineStatus := "SCANNING_LAYOUT".toList
        error := none } :=
  C7_generate_noImage_amended st0 ("p".toList)
    (Except.ok { side := none, top := none })
    ("pid".toList) ("sid".toList) ("tid".toList) 0
    (Except.ok pipeResult0) (Except.ok pipeResult0) rfl

/-! ## Claims C6 and C10 (handleRefine) -/

/-- A concrete generated view. -/
def svg0 : GeneratedSvg :=
  { id := "v1".toList, content := "<svg>old</svg>".toList, prompt := "old prompt".toList
    timestamp := 1, auditReport := some ("minor flaws".toList), viewType := .side }

/-- A concrete second view for the inactive slot. -/
def svg1 : GeneratedSvg :=
  { id := "v2".toList, content := "<svg>top</svg>".toList, prompt := "old prompt".toList
    timestamp := 2, auditReport := some ("ok".toList), viewType := .top }

/-- A concrete project holding both views. -/
def proj0 : WarshipProject :=
  { id := "proj".toList, sideView := some svg0, topView := some svg1, originalImage := img0 }

/-- The view record the refine path builds: the active view with only
content, prompt and timestamp replaced (`{...currentSvg, content, prompt,
timestamp}` in the source). -/
def updatedSvgOf (v : GeneratedSvg) (refined prompt : List Char) (now : ℤ) : GeneratedSvg :=
  { v with content := refined, prompt := prompt, timestamp := now }

/-- Claim C6: a successful refinement on a project whose active view exists
replaces only that view's content, prompt and timestamp; the view's id,
view type and audit report, the other view, the project id and the original
image are unchanged. -/
theorem C6_refine_frame (st : AppState) (prompt refined : List Char) (now : ℤ)
    (p : WarshipProject) (v : GeneratedSvg)
    (hp : st.project = some p)
    (hv : (if st.activeView = .side then p.sideView else p.topView) = some v) :
    handleRefine st prompt (Except.ok refined) now =
      { st with
        status := .SUCCESS
        pipelineStatus := "REFINING_ACTIVE_VIEW".toList
        project := some (if st.activeView = .side then
            { p with sideView := some (updatedSvgOf v refined prompt now) }
          else
            { p with topView := some (updatedSvgOf v refined prompt now) }) } ∧
    (updatedSvgOf v refined prompt now).id = v.id ∧
    (updatedSvgOf v refined prompt now).viewType = v.viewType ∧
    (updatedSvgOf v refined prompt now).auditReport = v.auditReport ∧
    (st.activeView = .side →
      ({ p with sideView := some (updatedSvgOf v refined prompt now) } : WarshipProject).topView
        = p.topView) ∧
    (st.activeView ≠ .side →
      ({ p with topView := some (updatedSvgOf v refined prompt now) } : WarshipProject).sideView
        = p.sideView) := by
  refine ⟨?_, rfl, rfl, rfl, fun _ => rfl, fun _ => rfl⟩
  unfold handleRefine
  rw [hp]
  by_cases ha : st.activeView = .side
  · rw [if_pos ha] at hv
    simp only [ha, if_true, hv, updatedSvgOf]
  · rw [if_neg ha] at hv
    simp only [if_neg ha, hv, updatedSvgOf]

/-- Witness for claim C6 on a concrete two-view project with the side view
active: the side view is replaced, the top view, ids and image are kept. -/
theorem C6_witness :
    handleRefine { st0 with project := some proj0 } ("new prompt".toList)
        (Except.ok ("<svg>new</svg>".toList)) 9 =
      { st0 with
        status := .SUCCESS
        pipelineStatus := "REFINING_ACTIVE_VIEW".toList
        project := some { proj0 with
          sideView := some (updatedSvgOf svg0 ("<svg>new</svg>".toList)
            ("new prompt".toList) 9) } } := by
  have h := C6_refine_frame { st0 with project := some proj0 } ("new prompt".toList)
    ("<svg>new</svg>".toList) 9 proj0 svg0 rfl rfl
  exact h.1.trans (by decide)

/-- Claim C10: with no project, `handleRefine` returns before any write or
call: the whole state is unchanged. -/
theorem C10_refine_noProject (st : AppState) (prompt : List Char)
    (refineResult : Except (List Char) (List Char)) (now : ℤ)
    (hproj : st.project = none) :
    handleRefine st prompt refineResult now = st := by
  unfold handleRefine
  rw [hproj]

/-- Witness for claim C10 at the concrete idle state. -/
theorem C10_witness :
    handleRefine st0 ("p".toList) (Except.ok ("x".toList)) 0 = st0 :=
  C10_refine_noProject st0 ("p".toList) (Except.ok ("x".toList)) 0 rfl

/-! ## Claim C8 (runViewPipeline events) -/

/-- The status-callback invocations of a pipeline run, in order. -/
def statusUpdates (trace : List PipelineEvent) : List (List Char) :=
  trace.filterMap (fun e => match e with
    | .statusUpdate tag => some tag
    | .modelCall _ => none)

/-- A model that rejects the draft request. -/
def aiFailDraft : GenAI :=
  { draftResponse := Except.error ("network error".toList)
    auditResponse := Except.ok (some ("a".toList))
    healResponse := Except.ok (some ("<svg></svg>".toList)) }

/-- A model that answers all three requests. -/
def aiOk : GenAI :=
  { draftResponse := Except.ok (some ("<svg>draft</svg>".toList))
    auditResponse := Except.ok (some ("audit findings".toList))
    healResponse := Except.ok (some ("<svg>healed</svg>".toList)) }

/-- Claim C8 is false as stated for runs in which a stage rejects: when the
draft request fails, the status callback has fired exactly once, not three
times, and the run rejects. -/
theorem C8_counterexample :
    statusUpdates (runViewPipeline aiFailDraft .side).1 = ["DRAFTING_SIDE".toList] ∧
    (statusUpdates (runViewPipeline aiFailDraft .side).1).length = 1 ∧
    (1 : Nat) ≠ 3 ∧
    (runViewPipeline aiFailDraft .side).2 = Except.error ("network error".toList) := by
  exact ⟨by decide, by decide, by decide, rfl⟩

/-- A model whose audit response resolves without text: the run still
succeeds, with the fixed fallback audit report. -/
def aiNoAuditText : GenAI :=
  { draftResponse := Except.ok (some ("<svg>draft</svg>".toList))
    auditResponse := Except.ok none
    healResponse := Except.ok (some ("<svg>healed</svg>".toList)) }

/-- Claim C8, amended: on every run of `runViewPipeline` whose three stage
model calls succeed — the draft and heal responses carry text, the audit
response may carry any text or none (absent or empty audit text is replaced
by the fixed fallback and the run still resolves) — the observable side
effects are exactly six events, in order: the status callback with
`DRAFTING_<V>`, the draft model call, the callback with `AUDITING_<V>`, the
audit call, the callback with `HEALING_<V>`, the heal call (`<V>` the
upper-cased view type), each callback firing before its stage's call, and
the run resolves with the healed SVG and the resolved audit text. -/
theorem C8_pipeline_events_amended (ai : GenAI) (v : ViewType)
    (d : List Char) (t : Option (List Char)) (h : List Char)
    (hd : ai.draftResponse = Except.ok (some d))
    (ha : ai.auditResponse = Except.ok t)
    (hh : ai.healResponse = Except.ok (some h)) :
    runViewPipeline ai v =
      ([PipelineEvent.statusUpdate ("DRAFTING_".toList ++ toUpperAscii v.str),
        PipelineEvent.modelCall ("draft".toList),
        PipelineEvent.statusUpdate ("AUDITING_".toList ++ toUpperAscii v.str),
        PipelineEvent.modelCall ("audit".toList),
        PipelineEvent.statusUpdate ("HEALING_".toList ++ toUpperAscii v.str),
        PipelineEvent.modelCall ("heal".toList)],
       (auditDraft ai).map (fun audit =>
         { content := extractSvg h, auditReport := audit })) := by
  unfold runViewPipeline generateDraft auditDraft healDraft
  rw [hd, ha, hh]
  cases t with
  | none => rfl
  | some s => rfl

/-- Witness for the amended claim C8 at two concrete models: one answering
every request with text, and one whose audit response has no text (the run
still succeeds, with the fallback report and the same six-event trace). -/
theorem C8_witness :
    (runViewPipeline aiOk .side).1 =
      [PipelineEvent.statusUpdate ("DRAFTING_SIDE".toList),
       PipelineEvent.modelCall ("draft".toList),
       PipelineEvent.statusUpdate ("AUDITING_SIDE".toList),
       PipelineEvent.modelCall ("audit".toList),
       PipelineEvent.statusUpdate ("HEALING_SIDE".toList),
       PipelineEvent.modelCall ("heal".toList)] ∧
    (runViewPipeline aiNoAuditText .top).1 =
      [PipelineEvent.statusUpdate ("DRAFTING_TOP".toList),
       PipelineEvent.modelCall ("draft".toList),
       PipelineEvent.statusUpdate ("AUDITING_TOP".toList),
       PipelineEvent.modelCall ("audit".toList),
       PipelineEvent.statusUpdate ("HEALING_TOP".toList),
       PipelineEvent.modelCall ("heal".toList)] ∧
    (runViewPipeline aiNoAuditText .top).2 =
      Except.ok { content := extractSvg ("<svg>healed</svg>".toList)
                  auditReport := "No major issues found.".toList } := by
  refine ⟨?_, ?_, ?_⟩
  · have h := C8_pipeline_events_amended aiOk .side ("<svg>draft</svg>".toList)
      (some ("audit findings".toList)) ("<svg>healed</svg>".toList) rfl rfl rfl
    rw [h]
    decide
  · have h := C8_pipeline_events_amended aiNoAuditText .top ("<svg>draft</svg>".toList)
      none ("<svg>healed</svg>".toList) rfl rfl rfl
    rw [h]
    decide
  · have h := C8_pipeline_events_amended aiNoAuditText .top ("<svg>draft</svg>".toList)
      none ("<svg>healed</svg>".toList) rfl rfl rfl
    rw [h]
    rfl

end WarshipSvg
